import Mathlib

/-!
Shallow embedding of the tabular operations demonstrated in
`src/lib_pandas/lib_pandas.ipynb`: the fixed example dataframe, row/column
selection, boolean-mask composition, `isin`, `loc`-style writes, and the
group-by operations `agg`, `apply` and `transform`.  Numeric cells are
modelled as rationals (every value appearing in the notebook is an exact
dyadic rational, and so are all the recorded outputs).
-/

/-- A cell value: a text cell, a numeric cell, or a missing value
(pandas `NaN`, which appears when a `loc` write creates a new column). -/
inductive Value where
  | str : String → Value
  | num : ℚ → Value
  | na : Value
deriving DecidableEq

/-- A dataframe: ordered named columns plus rows carrying their index label
(pandas keeps the original integer index through filtering). -/
structure Table where
  cols : List String
  rows : List (ℕ × List Value)
deriving DecidableEq

/-- A single column extracted from a table: its name plus the
index-aligned entries (pandas `Series`). -/
structure Series where
  name : String
  entries : List (ℕ × Value)
deriving DecidableEq

/-- `example_df` from the notebook: the fixed 4-row, 3-column fixture. -/
def example_df : Table :=
  { cols := ["Cat", "Val1", "Val2"],
    rows := [
      (0, [Value.str "C1", Value.num 1, Value.num 2]),
      (1, [Value.str "C1", Value.num 3, Value.num 4]),
      (2, [Value.str "C2", Value.num 5, Value.num 6]),
      (3, [Value.str "C2", Value.num 7, Value.num 8])] }

/-- The cell of a row under a given column name (missing column gives `na`). -/
def cellAt (cols : List String) (cells : List Value) (c : String) : Value :=
  cells.getD (cols.indexOf c) Value.na

/-- Column projection `df["c"]`: the named column as an index-aligned series. -/
def selectColumn (t : Table) (c : String) : Series :=
  ⟨c, t.rows.map (fun r => (r.1, cellAt t.cols r.2 c))⟩

/-- Row selection `df[pred]` by a row predicate: keeps the rows satisfying
the predicate, preserving order and index labels. -/
def selectRowsPred (t : Table) (p : ℕ × List Value → Bool) : Table :=
  ⟨t.cols, t.rows.filter p⟩

/-- The boolean mask of a row predicate, aligned to row order. -/
def rowMask (t : Table) (p : ℕ × List Value → Bool) : List Bool :=
  t.rows.map p

/-- Filtering a list by an aligned boolean mask (`df[mask]` on rows,
`series[mask]` on entries). -/
def maskFilter {α : Type} : List Bool → List α → List α
  | true :: bs, x :: xs => x :: maskFilter bs xs
  | false :: bs, _ :: xs => maskFilter bs xs
  | _, _ => []

/-- Row selection `df[mask]` by an aligned boolean mask. -/
def selectRowsMask (t : Table) (m : List Bool) : Table :=
  ⟨t.cols, maskFilter m t.rows⟩

/-- The mask of a per-column comparison: apply `p` to the named column's
cell of every row, in row order. -/
def colMask (t : Table) (c : String) (p : Value → Bool) : List Bool :=
  t.rows.map (fun r => p (cellAt t.cols r.2 c))

/-- `v >= q` on a numeric cell (`df["c"] >= q`). -/
def vge (q : ℚ) : Value → Bool
  | Value.num x => decide (q ≤ x)
  | _ => false

/-- `v <= q` on a numeric cell (`df["c"] <= q`). -/
def vle (q : ℚ) : Value → Bool
  | Value.num x => decide (x ≤ q)
  | _ => false

/-- `v == s` on a text cell (`df["c"] == "s"`). -/
def veqStr (s : String) : Value → Bool
  | Value.str a => a == s
  | _ => false

/-- Elementwise AND of two aligned masks (`&`). -/
def maskAnd (m₁ m₂ : List Bool) : List Bool :=
  List.zipWith and m₁ m₂

/-- Elementwise OR of two aligned masks (`|`). -/
def maskOr (m₁ m₂ : List Bool) : List Bool :=
  List.zipWith or m₁ m₂

/-- Elementwise NOT of a mask (`~`). -/
def maskNot (m : List Bool) : List Bool :=
  m.map not

/-- `df["c"].isin(vals)`: membership mask of the named column. -/
def isin (t : Table) (c : String) (vals : List Value) : List Bool :=
  colMask t c (fun v => vals.contains v)

/-- Write a value into an existing column at the rows picked by the mask. -/
def setCells (j : ℕ) (v : Value) : List Bool → List (ℕ × List Value) → List (ℕ × List Value)
  | b :: bs, r :: rs => (r.1, if b then r.2.set j v else r.2) :: setCells j v bs rs
  | _, _ => []

/-- Append a new column: the written value at masked rows, `na` elsewhere. -/
def extendCells (v : Value) : List Bool → List (ℕ × List Value) → List (ℕ × List Value)
  | b :: bs, r :: rs => (r.1, r.2 ++ [if b then v else Value.na]) :: extendCells v bs rs
  | _, _ => []

/-- `df.loc[mask, c] = v`: assigns `v` into exactly the cells of column `c`
at rows picked by the mask; creates the column when absent. -/
def locWrite (t : Table) (m : List Bool) (c : String) (v : Value) : Table :=
  if t.cols.contains c then
    ⟨t.cols, setCells (t.cols.indexOf c) v m t.rows⟩
  else
    ⟨t.cols ++ [c], extendCells v m t.rows⟩

/-- Lexicographic order on character lists (by code point). -/
def charsLe : List Char → List Char → Bool
  | [], _ => true
  | _ :: _, [] => false
  | a :: as, b :: bs =>
    if a.toNat < b.toNat then true
    else if b.toNat < a.toNat then false
    else charsLe as bs

/-- Total order on cell values used to sort group keys
(pandas `groupby` sorts keys by default). -/
def valLe : Value → Value → Bool
  | Value.na, _ => true
  | Value.str _, Value.na => false
  | Value.str a, Value.str b => charsLe a.data b.data
  | Value.str _, Value.num _ => true
  | Value.num a, Value.num b => decide (a ≤ b)
  | Value.num _, _ => false

/-- Insert into a list sorted by `le`. -/
def insertBy {α : Type} (le : α → α → Bool) (x : α) : List α → List α
  | [] => [x]
  | y :: ys => if le x y then x :: y :: ys else y :: insertBy le x ys

/-- Insertion sort by `le`. -/
def sortBy {α : Type} (le : α → α → Bool) : List α → List α
  | [] => []
  | x :: xs => insertBy le x (sortBy le xs)

/-- First-seen deduplication of a list of values. -/
def dedupVals (seen : List Value) : List Value → List Value
  | [] => []
  | v :: vs => if seen.contains v then dedupVals seen vs else v :: dedupVals (v :: seen) vs

/-- The key column of a table, in row order. -/
def keyCol (t : Table) (k : String) : List Value :=
  t.rows.map (fun r => cellAt t.cols r.2 k)

/-- The distinct group keys, in ascending sorted order
(`df.groupby(k)` with the default `sort=True`). -/
def groupKeys (t : Table) (k : String) : List Value :=
  sortBy valLe (dedupVals [] (keyCol t k))

/-- The rows of the group with the given key, preserving within-group order. -/
def groupRows (t : Table) (k : String) (key : Value) : List (ℕ × List Value) :=
  t.rows.filter (fun r => cellAt t.cols r.2 k == key)

/-- The numeric values of a list of cells (non-numeric cells are skipped,
as pandas reductions skip non-numeric data). -/
def numsOf (vs : List Value) : List ℚ :=
  vs.filterMap (fun v => match v with | Value.num q => some q | _ => none)

/-- The numeric contents of column `c` restricted to the group `key`. -/
def gcol (t : Table) (k : String) (key : Value) (c : String) : List ℚ :=
  numsOf ((groupRows t k key).map (fun r => cellAt t.cols r.2 c))

/-- The non-key columns, in table order. -/
def nonKeyCols (t : Table) (k : String) : List String :=
  t.cols.filter (fun c => c != k)

/-- Arithmetic mean of a sequence (`np.mean` / `Series.mean`). -/
def mean (xs : List ℚ) : ℚ :=
  xs.sum / (xs.length : ℚ)

/-- Sum of squared deviations from the mean. -/
def sqDevSum (xs : List ℚ) : ℚ :=
  (xs.map (fun x => (x - mean xs) ^ 2)).sum

/-- Sample variance with divisor `n - 1` (`np.var` inside `agg` is mapped
by pandas to `Series.var`, whose default `ddof` is 1; the notebook's
recorded output `var = 2.0` for the two-element groups confirms this). -/
def var (xs : List ℚ) : ℚ :=
  sqDevSum xs / ((xs.length : ℚ) - 1)

/-- `df.groupby(k).agg(f)`: one scalar per non-key column per group,
keyed by the sorted distinct group keys. -/
def group_agg (t : Table) (k : String) (f : List ℚ → ℚ) :
    List (Value × List (String × ℚ)) :=
  (groupKeys t k).map (fun key =>
    (key, (nonKeyCols t k).map (fun c => (c, f (gcol t k key c)))))

/-- `df.groupby(k).agg([f₁, f₂, ...])`: one scalar per
(column, reducer) pair per group, with the reducer name attached. -/
def group_agg_multi (t : Table) (k : String) (fs : List (String × (List ℚ → ℚ))) :
    List (Value × List (String × List (String × ℚ))) :=
  (groupKeys t k).map (fun key =>
    (key, (nonKeyCols t k).map (fun c =>
      (c, fs.map (fun nf => (nf.1, nf.2 (gcol t k key c)))))))

/-- `df.groupby(k).agg(out=(src, f), ...)`: named reducers targeting
specific source columns, one scalar per declared output name per group. -/
def group_agg_named (t : Table) (k : String)
    (spec : List (String × String × (List ℚ → ℚ))) :
    List (Value × List (String × ℚ)) :=
  (groupKeys t k).map (fun key =>
    (key, spec.map (fun s => (s.1, s.2.2 (gcol t k key s.2.1)))))

/-- The sub-table holding one group's rows (the argument pandas passes to
the function given to `groupby().apply`). -/
def subTable (t : Table) (k : String) (key : Value) : Table :=
  ⟨t.cols, groupRows t k key⟩

/-- `df.mean()`: the mean of every numeric column of a table
(non-numeric columns are skipped). -/
def dfMean (t : Table) : List (String × ℚ) :=
  t.cols.filterMap (fun c =>
    let xs := numsOf (t.rows.map (fun r => cellAt t.cols r.2 c))
    if xs.isEmpty then none else some (c, mean xs))

/-- `df.groupby(k).apply(f)` for a function returning one labelled value
per column: one result row per group, keyed by the sorted group keys. -/
def group_apply (t : Table) (k : String) (f : Table → List (String × ℚ)) :
    List (Value × List (String × ℚ)) :=
  (groupKeys t k).map (fun key => (key, f (subTable t k key)))

/-- What the function handed to `groupby().transform` may return for one
group's column: a scalar (broadcast over the group) or a sequence
(must match the group's length). -/
inductive TransResult where
  | scalar : ℚ → TransResult
  | seq : List ℚ → TransResult

/-- Errors of the operation surface. -/
inductive TError where
  | NotFound : TError
  | ShapeMismatch : TError
deriving DecidableEq

/-- Whether a transform result is acceptable for a group column `xs`:
a scalar always is, a sequence only when its length matches. -/
def transOk (xs : List ℚ) : TransResult → Bool
  | TransResult.scalar _ => true
  | TransResult.seq ys => ys.length == xs.length

/-- The value a transform result assigns to the row at within-group
position `pos`. -/
def transCell (res : TransResult) (pos : ℕ) : ℚ :=
  match res with
  | TransResult.scalar q => q
  | TransResult.seq ys => ys.getD pos 0

/-- The group key of a row. -/
def rowKey (t : Table) (k : String) (r : ℕ × List Value) : Value :=
  cellAt t.cols r.2 k

/-- Rows paired with their absolute position. -/
def enumRows : ℕ → List (ℕ × List Value) → List (ℕ × (ℕ × List Value))
  | _, [] => []
  | i, r :: rs => (i, r) :: enumRows (i + 1) rs

/-- `df.groupby(k).transform(f)`.  The success path mirrors the notebook:
the result keeps the original row count, row order and index labels, and
each row receives its own group's value for each non-key column (scalars
broadcast).  Modelled from the spec: the error path — a function returning
a sequence whose length differs from its group's column fails with
`ShapeMismatch` and is never truncated or padded — is stated by the
notebook's contract text and spec §4.6/§7 but exercised by no recorded
cell, the implementation living in the external library. -/
def group_transform (t : Table) (k : String) (f : List ℚ → TransResult) :
    Except TError Table :=
  if (groupKeys t k).all (fun key =>
      (nonKeyCols t k).all (fun c => transOk (gcol t k key c) (f (gcol t k key c)))) then
    Except.ok ⟨nonKeyCols t k,
      (enumRows 0 t.rows).map (fun ir =>
        (ir.2.1, (nonKeyCols t k).map (fun c =>
          Value.num (transCell (f (gcol t k (rowKey t k ir.2) c))
            ((t.rows.take ir.1).filter
              (fun r => rowKey t k r == rowKey t k ir.2)).length))))⟩
  else
    Except.error TError.ShapeMismatch

/-- The Example Table literal as spec §3 writes it: columns
`Cat, Val1, Val2` and four rows `(C1,1.0,2.0), (C1,3.0,4.0),
(C2,5.0,6.0), (C2,7.0,8.0)` with positional identity `0..3`.
Written from the spec's table, to be compared with `example_df`. -/
def exampleTableSpec : Table :=
  { cols := ["Cat", "Val1", "Val2"],
    rows := [
      (0, [Value.str "C1", Value.num 1, Value.num 2]),
      (1, [Value.str "C1", Value.num 3, Value.num 4]),
      (2, [Value.str "C2", Value.num 5, Value.num 6]),
      (3, [Value.str "C2", Value.num 7, Value.num 8])] }

/-- The notebook's `loc`-write cell: starting from `example_df`, assign 9 to
column `Val3` at the rows where `Cat == "C1"`, then 10 at the rows where
`Cat == "C2"` (the second mask is computed on the already-updated table,
exactly as the cell does). -/
def example_loc_write : Table :=
  locWrite
    (locWrite example_df (colMask example_df "Cat" (veqStr "C1")) "Val3" (Value.num 9))
    (colMask (locWrite example_df (colMask example_df "Cat" (veqStr "C1")) "Val3" (Value.num 9))
      "Cat" (veqStr "C2"))
    "Val3" (Value.num 10)

/-- Filtering a mapped list by the mask of a predicate mapped over the same
list is filtering by the predicate and then mapping. -/
theorem maskFilter_map {α β : Type} (p : α → Bool) (g : α → β) :
    ∀ l : List α, maskFilter (l.map p) (l.map g) = (l.filter p).map g := by
  intro l
  induction l with
  | nil => rfl
  | cons a l ih =>
    cases hpa : p a <;> simp [maskFilter, List.filter_cons, hpa, ih]

/-- Claim C4: the example-table builder takes no input and every invocation
returns the fixed literal of spec §3 — columns `Cat, Val1, Val2` in that
order and exactly the four rows `(C1,1,2), (C1,3,4), (C2,5,6), (C2,7,8)` in
that order with positional identity `0..3`; being a constant of the
embedding, any two invocations are value-equal. -/
theorem builder_matches_spec_literal :
    example_df = exampleTableSpec ∧
    example_df.cols = ["Cat", "Val1", "Val2"] ∧
    example_df.rows.map Prod.fst = [0, 1, 2, 3] := by decide

/-- Claim C3: for every table, row predicate and column name present in the
table, selecting the rows satisfying the predicate and then projecting the
named column yields the same entries (values with their row identities) as
projecting the column first and filtering its entries by the predicate's
mask: the read side of chained selection commutes with projection. -/
theorem chained_select_commutes (t : Table) (p : ℕ × List Value → Bool) (c : String)
    (hc : c ∈ t.cols) :
    selectColumn (selectRowsPred t p) c =
      ⟨c, maskFilter (rowMask t p) (selectColumn t c).entries⟩ := by
  simp only [selectColumn, selectRowsPred, rowMask, Series.mk.injEq, true_and]
  exact (maskFilter_map p _ t.rows).symm

/-- Witness for claim C3: the commutation instantiated at the example table
with the predicate `Cat == "C1"` and the column `Val1`. -/
theorem chained_select_commutes_w :
    "Val1" ∈ example_df.cols ∧
    selectColumn (selectRowsPred example_df
        (fun r => veqStr "C1" (cellAt example_df.cols r.2 "Cat"))) "Val1" =
      ⟨"Val1", maskFilter
        (rowMask example_df (fun r => veqStr "C1" (cellAt example_df.cols r.2 "Cat")))
        (selectColumn example_df "Val1").entries⟩ :=
  ⟨by decide, chained_select_commutes example_df
    (fun r => veqStr "C1" (cellAt example_df.cols r.2 "Cat")) "Val1" (by decide)⟩

/-- Claim C5: writing through the combined row+column accessor — 9 into
`Val3` where `Cat == "C1"`, then 10 into `Val3` where `Cat == "C2"` — and
reading the full table yields `Val3 = [9, 9, 10, 10]` in row order, with
all other cells of the original table unchanged. -/
theorem loc_write_val3 :
    example_loc_write =
      ⟨["Cat", "Val1", "Val2", "Val3"],
       [(0, [Value.str "C1", Value.num 1, Value.num 2, Value.num 9]),
        (1, [Value.str "C1", Value.num 3, Value.num 4, Value.num 9]),
        (2, [Value.str "C2", Value.num 5, Value.num 6, Value.num 10]),
        (3, [Value.str "C2", Value.num 7, Value.num 8, Value.num 10])]⟩ ∧
    selectColumn example_loc_write "Val3" =
      ⟨"Val3", [(0, Value.num 9), (1, Value.num 9), (2, Value.num 10), (3, Value.num 10)]⟩ := by
  decide

/-- Claim C6: the AND-composition of the grouped comparisons
`Val2 >= 4` and `Val2 <= 6` is the row-aligned mask
`[false, true, true, false]` and selects exactly rows 1 and 2. -/
theorem mask_and_range_selects_rows_1_2 :
    maskAnd (colMask example_df "Val2" (vge 4)) (colMask example_df "Val2" (vle 6)) =
      [false, true, true, false] ∧
    selectRowsMask example_df
        (maskAnd (colMask example_df "Val2" (vge 4)) (colMask example_df "Val2" (vle 6))) =
      ⟨["Cat", "Val1", "Val2"],
       [(1, [Value.str "C1", Value.num 3, Value.num 4]),
        (2, [Value.str "C2", Value.num 5, Value.num 6])]⟩ := by
  decide

/-- Claim C7: `isin` on column `Val2` with the value set `{4, 8}` produces
the mask `[false, true, false, true]` and selects exactly rows 1 and 3. -/
theorem isin_selects_rows_1_3 :
    isin example_df "Val2" [Value.num 4, Value.num 8] = [false, true, false, true] ∧
    selectRowsMask example_df (isin example_df "Val2" [Value.num 4, Value.num 8]) =
      ⟨["Cat", "Val1", "Val2"],
       [(1, [Value.str "C1", Value.num 3, Value.num 4]),
        (3, [Value.str "C2", Value.num 7, Value.num 8])]⟩ := by
  decide

/-- Claim C8: group aggregation of the example table by `Cat` with the
single reducer `mean` yields one scalar per non-key column per group,
keyed by the distinct group keys: `C1 ↦ (Val1 = 2, Val2 = 3)` and
`C2 ↦ (Val1 = 6, Val2 = 7)`. -/
theorem group_agg_mean_values :
    group_agg example_df "Cat" mean =
      [(Value.str "C1", [("Val1", 2), ("Val2", 3)]),
       (Value.str "C2", [("Val1", 6), ("Val2", 7)])] := by
  have h1 : groupKeys example_df "Cat" = [Value.str "C1", Value.str "C2"] := by decide
  have h2 : nonKeyCols example_df "Cat" = ["Val1", "Val2"] := by decide
  have g1 : gcol example_df "Cat" (Value.str "C1") "Val1" = [1, 3] := by decide
  have g2 : gcol example_df "Cat" (Value.str "C1") "Val2" = [2, 4] := by decide
  have g3 : gcol example_df "Cat" (Value.str "C2") "Val1" = [5, 7] := by decide
  have g4 : gcol example_df "Cat" (Value.str "C2") "Val2" = [6, 8] := by decide
  simp only [group_agg, h1, h2, List.map_cons, List.map_nil, g1, g2, g3, g4]
  norm_num [mean]

/-- Claim C1: group aggregation with the two reducers `mean` and `var` over
the example table gives, for group `C1` column `Val1` (values 1 and 3),
mean 2 and variance 2; the `var` reducer divides the sum of squared
deviations by `n - 1` (never by `n`: on `[1, 3]` that would give 1). -/
theorem agg_mean_var_sample_divisor :
    group_agg_multi example_df "Cat" [("mean", mean), ("var", var)] =
      [(Value.str "C1",
        [("Val1", [("mean", 2), ("var", 2)]), ("Val2", [("mean", 3), ("var", 2)])]),
       (Value.str "C2",
        [("Val1", [("mean", 6), ("var", 2)]), ("Val2", [("mean", 7), ("var", 2)])])] ∧
    (∀ xs : List ℚ, var xs = sqDevSum xs / ((xs.length : ℚ) - 1)) ∧
    var [1, 3] ≠ sqDevSum [1, 3] / 2 := by
  refine ⟨?_, fun xs => rfl, by norm_num [var, sqDevSum, mean]⟩
  have h1 : groupKeys example_df "Cat" = [Value.str "C1", Value.str "C2"] := by decide
  have h2 : nonKeyCols example_df "Cat" = ["Val1", "Val2"] := by decide
  have g1 : gcol example_df "Cat" (Value.str "C1") "Val1" = [1, 3] := by decide
  have g2 : gcol example_df "Cat" (Value.str "C1") "Val2" = [2, 4] := by decide
  have g3 : gcol example_df "Cat" (Value.str "C2") "Val1" = [5, 7] := by decide
  have g4 : gcol example_df "Cat" (Value.str "C2") "Val2" = [6, 8] := by decide
  simp only [group_agg_multi, h1, h2, List.map_cons, List.map_nil, g1, g2, g3, g4]
  norm_num [mean, var, sqDevSum]

/-- Claim C2: `transform` with the mean reducer grouped by `Cat` yields a
result with the same row count (4), row order and index labels as the
input table, in which rows 0 and 1 hold `(2, 3)` and rows 2 and 3 hold
`(6, 7)` — each row receives its own group's value. -/
theorem transform_mean_preserves_rows :
    ∃ T : Table,
      group_transform example_df "Cat" (fun xs => TransResult.scalar (mean xs)) =
        Except.ok T ∧
      T.rows.length = 4 ∧
      T.rows.map Prod.fst = example_df.rows.map Prod.fst ∧
      T = ⟨["Val1", "Val2"],
        [(0, [Value.num 2, Value.num 3]), (1, [Value.num 2, Value.num 3]),
         (2, [Value.num 6, Value.num 7]), (3, [Value.num 6, Value.num 7])]⟩ := by
  refine ⟨⟨["Val1", "Val2"],
    [(0, [Value.num 2, Value.num 3]), (1, [Value.num 2, Value.num 3]),
     (2, [Value.num 6, Value.num 7]), (3, [Value.num 6, Value.num 7])]⟩,
    ?_, by decide, by decide, rfl⟩
  have h1 : groupKeys example_df "Cat" = [Value.str "C1", Value.str "C2"] := by decide
  have h2 : nonKeyCols example_df "Cat" = ["Val1", "Val2"] := by decide
  have hidx : List.indexOf "Cat" ["Cat", "Val1", "Val2"] = 0 := by decide
  have g1 : gcol exampleTableSpec "Cat" (Value.str "C1") "Val1" = [1, 3] := by decide
  have g2 : gcol exampleTableSpec "Cat" (Value.str "C1") "Val2" = [2, 4] := by decide
  have g3 : gcol exampleTableSpec "Cat" (Value.str "C2") "Val1" = [5, 7] := by decide
  have g4 : gcol exampleTableSpec "Cat" (Value.str "C2") "Val2" = [6, 8] := by decide
  simp only [exampleTableSpec] at g1 g2 g3 g4
  simp only [group_transform, h1, h2, List.all_cons, List.all_nil, transOk, Bool.and_true,
    Bool.and_self, if_true]
  simp only [example_df, enumRows, List.map_cons, List.map_nil, rowKey, cellAt,
    List.take, List.filter, transCell, hidx, List.getD_cons_zero, List.getD_cons_succ]
  simp only [g1, g2, g3, g4]
  norm_num [mean]

/-- Claim C9: for every table, grouping and transform function, if the
function returns for some group column a sequence whose length differs
from that column's length, `group_transform` fails with `ShapeMismatch`
(the error is the returned value, never a truncated or padded result). -/
theorem transform_shape_mismatch (t : Table) (k : String) (f : List ℚ → TransResult)
    (key : Value) (c : String) (ys : List ℚ)
    (hkey : key ∈ groupKeys t k) (hc : c ∈ nonKeyCols t k)
    (hf : f (gcol t k key c) = TransResult.seq ys)
    (hlen : ys.length ≠ (gcol t k key c).length) :
    group_transform t k f = Except.error TError.ShapeMismatch := by
  have hcond : ¬ ((groupKeys t k).all (fun key =>
      (nonKeyCols t k).all (fun c => transOk (gcol t k key c) (f (gcol t k key c)))) = true) := by
    intro hall
    have h1 := (List.all_eq_true.mp hall) key hkey
    have h2 := (List.all_eq_true.mp h1) c hc
    rw [hf] at h2
    simp only [transOk, beq_iff_eq] at h2
    exact hlen h2
  unfold group_transform
  rw [if_neg hcond]

/-- Witness for claim C9: a transform function returning the empty sequence
for the length-2 group column `(C1, Val1)` of the example table makes
`group_transform` return the `ShapeMismatch` error. -/
theorem transform_shape_mismatch_w :
    (Value.str "C1") ∈ groupKeys example_df "Cat" ∧
    "Val1" ∈ nonKeyCols example_df "Cat" ∧
    ([] : List ℚ).length ≠ (gcol example_df "Cat" (Value.str "C1") "Val1").length ∧
    group_transform example_df "Cat" (fun _ => TransResult.seq []) =
      Except.error TError.ShapeMismatch :=
  ⟨by decide, by decide, by decide,
    transform_shape_mismatch example_df "Cat" (fun _ => TransResult.seq [])
      (Value.str "C1") "Val1" [] (by decide) (by decide) rfl (by decide)⟩

/-- Claim C10: every demonstrated group-by variant over the example table —
`agg` with one reducer, `agg` with several, named aggregation, and
`apply` — keys its result rows `C1` then `C2`, and the group-key list is
sorted ascending under the key order. -/
theorem group_key_sorted_order :
    (group_agg example_df "Cat" mean).map Prod.fst = [Value.str "C1", Value.str "C2"] ∧
    (group_agg_multi example_df "Cat" [("mean", mean), ("var", var)]).map Prod.fst =
      [Value.str "C1", Value.str "C2"] ∧
    (group_agg_named example_df "Cat"
        [("val1_mean", "Val1", mean), ("val2_mean", "Val2", mean)]).map Prod.fst =
      [Value.str "C1", Value.str "C2"] ∧
    (group_apply example_df "Cat" dfMean).map Prod.fst = [Value.str "C1", Value.str "C2"] ∧
    List.Pairwise (fun a b => valLe a b = true) (groupKeys example_df "Cat") := by
  decide
